import Mathlib

/-!
Verification of the wind-estimation and field-fusion core of the
sailing-strategy analyzer.

The Python source is shallowly embedded over `ℚ`:

* `angle_difference` embeds `StrategyDetector._angle_difference`
  (`strategy/detector.py`), the shared circular-difference operation
  `((a - b + 180) % 360) - 180`; Python's `%` (sign of the divisor) is
  embedded as `pymod`.
* `categorize_maneuver` embeds `WindEstimator._categorize_maneuver`
  (`wind_estimator.py`).
* `estimate_wind_from_single_boat` embeds the validation prefix of
  `WindEstimator.estimate_wind_from_single_boat`; the numeric pipeline
  that runs after validation passes is abstracted as an explicit
  continuation argument `rest`, so every theorem below quantifies over it.
* `weighted_angle_consensus` / `estimate_wind_direction_hybrid_combine`
  embed `WindEstimator._weighted_angle_consensus` and the
  estimate-combination tail of `WindEstimator.estimate_wind_direction_hybrid`.
  The transcendental functions (`sin`, `cos`, `atan2` composed with the
  degree conversions) are abstract parameters, so the theorems hold for
  the actual floating-point trigonometry as well.
* `WindFieldFusionSystem` (`wind_field_fusion_system.py`) is embedded as
  explicit state passing over `FusionState`: `add`-side bookkeeping fields
  that the verified claims never touch (`previous_predictions`, the
  propagation model, the prediction evaluator) are omitted; the methods
  `_scale_data_points`, `fuse_wind_data` and `update_with_boat_data` are
  embedded with the unseeded `np.random.normal` jitter made an explicit
  `jitter` input (the repository's own design note asks for an injectable
  random source).
-/

namespace Sailing

/-- Python's `%` for a rational left operand and positive modulus:
`x % y = x - y * floor (x / y)`, the remainder carrying the divisor's sign. -/
def pymod (x y : ℚ) : ℚ := x - y * ⌊x / y⌋

/-- Python `min` over a list (the lists it is applied to are nonempty;
`0` is an arbitrary value for the impossible empty case). -/
def pymin : List ℚ → ℚ
  | [] => 0
  | x :: xs => xs.foldl min x

/-- Python `max` over a list (the lists it is applied to are nonempty;
`0` is an arbitrary value for the impossible empty case). -/
def pymax : List ℚ → ℚ
  | [] => 0
  | x :: xs => xs.foldl max x

/-! ### Circular statistics: `StrategyDetector._angle_difference` -/

/-- `strategy/detector.py` `_angle_difference`:
`((angle1 - angle2 + 180) % 360) - 180`. The same formula appears in
`WindEstimator._calculate_bearing_change` before the absolute value. -/
def angle_difference (angle1 angle2 : ℚ) : ℚ :=
  pymod (angle1 - angle2 + 180) 360 - 180

/-! ### Maneuver classification: `WindEstimator._categorize_maneuver` -/

/-- `wind_estimator.py` `_categorize_maneuver`: relative angles to the wind
are taken mod 360, a bearing counts as upwind when its relative angle lies
in `[0,90] ∪ [270,360]`, and the four maneuver labels follow from the
before/after upwind flags. -/
def categorize_maneuver (before_bearing after_bearing wind_direction : ℚ) : String :=
  let rel_before := pymod (before_bearing - wind_direction + 360) 360
  let rel_after := pymod (after_bearing - wind_direction + 360) 360
  let is_upwind_before :=
    (0 ≤ rel_before ∧ rel_before ≤ 90) ∨ (270 ≤ rel_before ∧ rel_before ≤ 360)
  let is_upwind_after :=
    (0 ≤ rel_after ∧ rel_after ≤ 90) ∨ (270 ≤ rel_after ∧ rel_after ≤ 360)
  if is_upwind_before ∧ is_upwind_after then "tack"
  else if ¬ is_upwind_before ∧ ¬ is_upwind_after then "jibe"
  else if is_upwind_before ∧ ¬ is_upwind_after then "bear_away"
  else "head_up"

/-- The upwind predicate actually enforced by `_categorize_maneuver`,
stated over the reduced relative angle: within 90° of the wind on either
side. -/
def upwind_rel (bearing wind_direction : ℚ) : Prop :=
  pymod (bearing - wind_direction) 360 ≤ 90 ∨ 270 ≤ pymod (bearing - wind_direction) 360

instance (b w : ℚ) : Decidable (upwind_rel b w) := by
  unfold upwind_rel; infer_instance

/-- The upwind predicate in the words of the claim under scrutiny:
relative angle at most the 45° upwind threshold, or at least 360° minus it.
Written from the claim text, to be compared with the source behaviour. -/
def claim_upwind_45 (bearing wind_direction : ℚ) : Prop :=
  pymod (bearing - wind_direction + 360) 360 ≤ 45 ∨
    360 - 45 ≤ pymod (bearing - wind_direction + 360) 360

/-! ### Single-boat estimation: `WindEstimator.estimate_wind_from_single_boat` -/

/-- `WindEstimator.min_valid_points` (constructor, line 48). -/
def min_valid_points : ℕ := 20

/-- `WindEstimator.min_valid_duration` in seconds (constructor, line 47). -/
def min_valid_duration : ℚ := 60

/-- The shape of a GPS track as seen by the validation prefix of
`estimate_wind_from_single_boat`: its row count, whether the `bearing` and
`speed` columns are present, and the `timestamp` column as a list of epoch
seconds (`none` when the column is absent; `some []` stands for the
all-unparseable fallback branch). -/
structure GpsData where
  numRows : ℕ
  hasBearing : Bool
  hasSpeed : Bool
  timestamps : Option (List ℚ)
deriving DecidableEq

/-- The duration computation of `estimate_wind_from_single_boat` step 3:
the span `max - min` of the timestamp column when usable, and the
`len(gps_data) * 5` five-second-interval fallback otherwise. -/
def track_duration (g : GpsData) : ℚ :=
  match g.timestamps with
  | some (t :: ts) => (ts.foldl max t) - (ts.foldl min t)
  | some [] => (g.numRows : ℚ) * 5
  | none => (g.numRows : ℚ) * 5

/-- Validation prefix of `estimate_wind_from_single_boat`
(`wind_estimator.py` lines 1458-1505): `None` input or too few rows or a
missing `bearing`/`speed` column returns `None`; a duration below
`min_valid_duration` returns `None` unless the row count exceeds
`min_valid_points * 2`, in which case processing continues.  The numeric
pipeline after validation is the explicit continuation `rest`.  The
function is total, so no input can raise. -/
def estimate_wind_from_single_boat {α : Type} (rest : GpsData → Option α)
    (gps_data : Option GpsData) : Option α :=
  match gps_data with
  | none => none
  | some g =>
    if g.numRows < min_valid_points then none
    else if ¬ (g.hasBearing && g.hasSpeed) = true then none
    else
      let dur := track_duration g
      if dur < min_valid_duration then
        if min_valid_points * 2 < g.numRows then rest g else none
      else rest g

/-! ### Hybrid direction estimate: `_weighted_angle_consensus` and the
combination tail of `estimate_wind_direction_hybrid` -/

/-- `WindEstimator._weighted_angle_consensus` (lines 1208-1241): estimators
with nonpositive confidence are dropped, the survivors' directions are
summed as confidence-weighted unit vectors, and the vector angle is reduced
to `[0,360)`.  `sind`/`cosd` stand for `sin`/`cos` of an angle in degrees
and `atan2deg` for `degrees(atan2 y x)`; they are abstract so the theorems
cover the floating-point trigonometry of the source. -/
def weighted_angle_consensus (sind cosd : ℚ → ℚ) (atan2deg : ℚ → ℚ → ℚ)
    (results : List (ℚ × ℚ)) : ℚ :=
  if results = [] then 0
  else
    let filtered := results.filter (fun r => decide (0 < r.2))
    let directions := filtered.map Prod.fst
    let confidences := filtered.map Prod.snd
    if directions = [] then 0
    else
      let sin_sum := (filtered.map (fun r => sind r.1 * r.2)).sum
      let cos_sum := (filtered.map (fun r => cosd r.1 * r.2)).sum
      let weight_sum := confidences.sum
      if weight_sum ≤ 0 then directions.headD 0
      else pymod (atan2deg sin_sum cos_sum) 360

/-- The `estimates` dictionary built by `estimate_wind_direction_hybrid`
(lines 334-348), in insertion order: the speed-pattern estimate always,
the polar estimate only when its confidence is positive, then the
optimal-VMG estimate.  Each entry is a `(direction, confidence)` pair. -/
def hybrid_estimates (speedE polarE vmgE : ℚ × ℚ) : List (ℚ × ℚ) :=
  [speedE] ++ (if 0 < polarE.2 then [polarE] else []) ++ [vmgE]

/-- Combination tail of `estimate_wind_direction_hybrid` (lines 350-362):
consensus direction over the estimates, and final confidence
`0.7 * max + 0.3 * mean` of the estimate confidences, scaled by the data
quality score. -/
def estimate_wind_direction_hybrid_combine (sind cosd : ℚ → ℚ)
    (atan2deg : ℚ → ℚ → ℚ) (speedE polarE vmgE : ℚ × ℚ)
    (data_quality : ℚ) : ℚ × ℚ :=
  let estimates := hybrid_estimates speedE polarE vmgE
  let final_direction := weighted_angle_consensus sind cosd atan2deg estimates
  let confidences := estimates.map Prod.snd
  let max_confidence := pymax confidences
  let avg_confidence := confidences.sum / (confidences.length : ℚ)
  let final_confidence := (7/10) * max_confidence + (3/10) * avg_confidence
  (final_direction, final_confidence * data_quality)

/-! ### Fusion system: `wind_field_fusion_system.py` -/

/-- One wind observation as stored in `wind_data_points`, including the
fields that `_scale_data_points` adds to a scaled copy. -/
structure WindDataPoint where
  timestamp : ℚ
  latitude : ℚ
  longitude : ℚ
  wind_direction : ℚ
  wind_speed : ℚ
  confidence : Option ℚ := none
  boat_id : Option String := none
  height : Option ℚ := none
  original_latitude : Option ℚ := none
  original_longitude : Option ℚ := none
  scaled_latitude : Option ℚ := none
  scaled_longitude : Option ℚ := none
  scaled_height : Option ℚ := none
deriving DecidableEq

/-- A fused wind field: the timestamp that `fuse_wind_data` stamps onto it,
with the grid payload (lat/lon/direction/speed/confidence grids) kept
abstract as a tag, since the fusion control flow never inspects it. -/
structure WindField where
  time : Option ℚ := none
  grid_data : ℕ := 0
deriving DecidableEq

/-- One `wind_field_history` entry: `{'time': t, 'field': f}`. -/
structure HistoryEntry where
  time : ℚ
  field : WindField
deriving DecidableEq

/-- The mutable state of a `WindFieldFusionSystem` instance that the
verified claims concern. -/
structure FusionState where
  wind_data_points : List WindDataPoint
  current_wind_field : Option WindField
  wind_field_history : List HistoryEntry
  last_fusion_time : Option ℚ
deriving DecidableEq

/-- `WindFieldFusionSystem.__init__`. -/
def init_fusion_state : FusionState :=
  { wind_data_points := []
    current_wind_field := none
    wind_field_history := []
    last_fusion_time := none }

/-- `WindFieldFusionSystem.max_history_size` (constructor). -/
def max_history_size : ℕ := 10

/-- The two interpolation methods `fuse_wind_data` requests. -/
inductive InterpMethod where
  | idw : InterpMethod
  | nearest : InterpMethod
deriving DecidableEq

/-- Modelled from the spec: `WindFieldInterpolator.interpolate_wind_field`.
The module `wind_field_interpolator.py` is not under `src/`; §4.6 of the
spec says it takes the scaled observations and a method (inverse-distance
weighting, or nearest-neighbor as fallback) and produces the grid of §3 or
fails (the solver may reject degenerate geometry).  It is modelled as an
arbitrary function into `Except`, so every theorem quantifies over all
spec-conforming interpolators. -/
def Interpolator : Type :=
  List WindDataPoint → InterpMethod → Except String WindField

/-- An interpolator that always succeeds, with `F` giving the produced
field; used to state properties of successful fusion cycles. -/
def ok_interpolator (F : List WindDataPoint → InterpMethod → WindField) :
    Interpolator :=
  fun pts m => Except.ok (F pts m)

/-- Map with a running index (iteration order of the scaling loop), used
to attach the per-point jitter draws. -/
def map_with_index (f : ℕ → WindDataPoint → WindDataPoint) :
    ℕ → List WindDataPoint → List WindDataPoint
  | _, [] => []
  | i, p :: ps => f i p :: map_with_index f (i + 1) ps

/-- Body of the scaling loop of `_scale_data_points`: normalize latitude,
longitude and wind speed to `[0,1]` with the precomputed mins and scales,
add the jitter draw for this index (`np.random.normal` modelled as the
explicit `jitter` input), and store scaled and original coordinates. -/
def scale_point (min_lat scale_lat min_lon scale_lon min_wind scale_wind : ℚ)
    (jitter : ℕ → ℚ × ℚ × ℚ) (i : ℕ) (point : WindDataPoint) : WindDataPoint :=
  let j := jitter i
  let norm_lat := (point.latitude - min_lat) * scale_lat + j.1
  let norm_lon := (point.longitude - min_lon) * scale_lon + j.2.1
  let norm_wind := (point.wind_speed - min_wind) * scale_wind + j.2.2
  { point with
    scaled_latitude := some norm_lat
    scaled_longitude := some norm_lon
    scaled_height := some norm_wind
    original_latitude := some point.latitude
    original_longitude := some point.longitude
    latitude := norm_lat
    longitude := norm_lon
    height := some norm_wind }

/-- `WindFieldFusionSystem._scale_data_points` (lines 157-254): compute the
lat/lon/wind-speed ranges, pad any range below the minimum span
(`0.005` for coordinates with an extra `0.001`, `1.0` for wind speed with
an extra `0.2`, the padded wind minimum clamped at `0`), derive the
uniform scale factors, and normalize-and-jitter every point. -/
def scale_data_points (jitter : ℕ → ℚ × ℚ × ℚ)
    (data_points : List WindDataPoint) : List WindDataPoint :=
  match data_points with
  | [] => []
  | p0 :: rest =>
    let pts := p0 :: rest
    let lats := pts.map (fun p => p.latitude)
    let lons := pts.map (fun p => p.longitude)
    let winds := pts.map (fun p => p.wind_speed)
    let min_lat := pymin lats
    let max_lat := pymax lats
    let min_lon := pymin lons
    let max_lon := pymax lons
    let min_wind := pymin winds
    let max_wind := pymax winds
    let lat_range := max_lat - min_lat
    let lon_range := max_lon - min_lon
    let wind_range := max_wind - min_wind
    let min_range : ℚ := 5/1000
    let lat' :=
      if lat_range < min_range then
        (min_lat - ((min_range - lat_range) / 2 + 1/1000), min_range + 2/1000)
      else (min_lat, lat_range)
    let lon' :=
      if lon_range < min_range then
        (min_lon - ((min_range - lon_range) / 2 + 1/1000), min_range + 2/1000)
      else (min_lon, lon_range)
    let min_wind_range : ℚ := 1
    let wind' :=
      if wind_range < min_wind_range then
        (max 0 (min_wind - ((min_wind_range - wind_range) / 2 + 2/10)),
          min_wind_range + 4/10)
      else (min_wind, wind_range)
    let scale_lat := if 0 < lat'.2 then 1 / lat'.2 else 1
    let scale_lon := if 0 < lon'.2 then 1 / lon'.2 else 1
    let scale_wind := if 0 < wind'.2 then 1 / wind'.2 else 1
    map_with_index
      (scale_point lat'.1 scale_lat lon'.1 scale_lon wind'.1 scale_wind jitter)
      0 pts

/-- `sorted(self.wind_data_points, key=lambda x: x['timestamp'])`. -/
def sort_by_timestamp (pts : List WindDataPoint) : List WindDataPoint :=
  List.insertionSort (fun a b => a.timestamp ≤ b.timestamp) pts

/-- Fallback element for `getLastD`; never used on the nonempty lists
`fuse_wind_data` reaches it with. -/
def default_point : WindDataPoint :=
  { timestamp := 0, latitude := 0, longitude := 0
    wind_direction := 0, wind_speed := 0 }

/-- `sorted_data[-1]['timestamp']`: the latest observation timestamp. -/
def latest_time_of (s : FusionState) : ℚ :=
  ((sort_by_timestamp s.wind_data_points).getLastD default_point).timestamp

/-- The `recent_data` list of `fuse_wind_data`: observations within 1800
seconds of the latest timestamp, in sorted order. -/
def recent_points (s : FusionState) : List WindDataPoint :=
  (sort_by_timestamp s.wind_data_points).filter
    (fun p => decide (latest_time_of s - p.timestamp ≤ 1800))

/-- The scaled observation list that `fuse_wind_data` hands to the
interpolator. -/
def fuse_input (jitter : ℕ → ℚ × ℚ × ℚ) (s : FusionState) :
    List WindDataPoint :=
  scale_data_points jitter (recent_points s)

/-- History push of `fuse_wind_data`: append the snapshot, then
`pop(0)` once if the history exceeds `max_history_size`. -/
def push_history (history : List HistoryEntry) (t : ℚ) (f : WindField) :
    List HistoryEntry :=
  if max_history_size < (history ++ [({ time := t, field := f } : HistoryEntry)]).length
  then (history ++ [({ time := t, field := f } : HistoryEntry)]).drop 1
  else history ++ [({ time := t, field := f } : HistoryEntry)]

/-- Success path shared by the two interpolation attempts of
`fuse_wind_data`: stamp the produced field with the latest observation
timestamp, store it as the current field, and push it onto the bounded
history. -/
def apply_fused_field (s : FusionState) (t : ℚ) (field : WindField) :
    FusionState :=
  let f := { field with time := some t }
  { s with
    last_fusion_time := some t
    current_wind_field := some f
    wind_field_history := push_history s.wind_field_history t f }

/-- `WindFieldFusionSystem.fuse_wind_data` (lines 272-362): return
unchanged on an empty point list; otherwise record the latest timestamp,
restrict to the 1800-second window, scale, and try the IDW interpolation;
on failure retry with the nearest-neighbor method; on success stamp the
field, store it and push it onto the bounded history; only when both
attempts fail set `current_wind_field` to `None`.  The propagation-model
update and the prediction-evaluation loop at the end touch neither the
point list, the field, nor the history, and `_restore_original_coordinates`
mutates only the local scaled copies; they are omitted.  The function is
total: no interpolator failure escapes it. -/
def fuse_wind_data (interp : Interpolator) (jitter : ℕ → ℚ × ℚ × ℚ)
    (s : FusionState) : FusionState :=
  if s.wind_data_points = [] then s
  else
    match interp (fuse_input jitter s) InterpMethod.idw with
    | Except.ok field => apply_fused_field s (latest_time_of s) field
    | Except.error _ =>
      match interp (fuse_input jitter s) InterpMethod.nearest with
      | Except.ok field => apply_fused_field s (latest_time_of s) field
      | Except.error _ =>
        { s with
          last_fusion_time := some (latest_time_of s)
          current_wind_field := none }

/-- The history entry appended by a fusion cycle whose IDW interpolation
succeeds with interpolator `ok_interpolator F`. -/
def fused_history_entry (F : List WindDataPoint → InterpMethod → WindField)
    (jitter : ℕ → ℚ × ℚ × ℚ) (s : FusionState) : HistoryEntry :=
  { time := latest_time_of s
    field := { F (fuse_input jitter s) InterpMethod.idw with
               time := some (latest_time_of s) } }

/-- A sequence of fusion cycles: each batch of observations replaces the
point buffer (as `update_with_boat_data` does) and is fused. -/
def run_fusions (interp : Interpolator) (jitter : ℕ → ℚ × ℚ × ℚ)
    (batches : List (List WindDataPoint)) (s : FusionState) : FusionState :=
  batches.foldl
    (fun st b => fuse_wind_data interp jitter { st with wind_data_points := b })
    s

/-- One row of a per-boat wind-estimate table passed to
`update_with_boat_data`. -/
structure BoatRow where
  timestamp : ℚ
  latitude : ℚ
  longitude : ℚ
  wind_direction : ℚ
  wind_speed_knots : ℚ
  confidence : Option ℚ := none
deriving DecidableEq

/-- A per-boat dataframe: its rows plus the presence flags of the columns
that `update_with_boat_data` requires. -/
structure BoatDataFrame where
  rows : List BoatRow
  hasTimestampCol : Bool := true
  hasLatitudeCol : Bool := true
  hasLongitudeCol : Bool := true
  hasWindDirectionCol : Bool := true
  hasWindSpeedKnotsCol : Bool := true
deriving DecidableEq

/-- The required-columns check of `update_with_boat_data`. -/
def required_columns (df : BoatDataFrame) : Bool :=
  df.hasTimestampCol && df.hasLatitudeCol && df.hasLongitudeCol &&
    df.hasWindDirectionCol && df.hasWindSpeedKnotsCol

/-- Conversion of one dataframe row into a wind data point
(knots to m/s by `* 0.51444`), carrying the boat id and, when present,
the confidence. -/
def boat_row_to_point (bid : String) (r : BoatRow) : WindDataPoint :=
  { timestamp := r.timestamp
    latitude := r.latitude
    longitude := r.longitude
    wind_direction := r.wind_direction
    wind_speed := r.wind_speed_knots * (51444/100000)
    confidence := r.confidence
    boat_id := some bid }

/-- `WindFieldFusionSystem.update_with_boat_data` (lines 93-155): reset
the point buffer, flatten every boat's rows into observations (skipping
empty dataframes and dataframes missing a required column), fuse when any
observation was collected, and return (the new state and) the current wind
field. -/
def update_with_boat_data (interp : Interpolator) (jitter : ℕ → ℚ × ℚ × ℚ)
    (boats_data : List (String × BoatDataFrame)) (s : FusionState) :
    FusionState × Option WindField :=
  let s0 := { s with wind_data_points := ([] : List WindDataPoint) }
  let pts := boats_data.foldl
    (fun acc b =>
      if b.2.rows = [] then acc
      else if ¬ required_columns b.2 = true then acc
      else acc ++ b.2.rows.map (boat_row_to_point b.1))
    ([] : List WindDataPoint)
  let s1 := { s0 with wind_data_points := pts }
  if pts = [] then (s1, s1.current_wind_field)
  else
    let s2 := fuse_wind_data interp jitter s1
    (s2, s2.current_wind_field)

/-! ### Concrete fixtures used by the witness theorems -/

/-- A single zero observation. -/
def test_point : WindDataPoint :=
  { timestamp := 0, latitude := 0, longitude := 0
    wind_direction := 0, wind_speed := 0 }

/-- A fusion state holding one observation. -/
def test_state : FusionState :=
  { wind_data_points := [test_point]
    current_wind_field := none
    wind_field_history := []
    last_fusion_time := none }

/-- A fusion state whose buffer holds one fresh and one stale observation
(2000 seconds apart, beyond the 1800-second window). -/
def stale_state : FusionState :=
  { wind_data_points := [test_point, { test_point with timestamp := 2000 }]
    current_wind_field := none
    wind_field_history := []
    last_fusion_time := none }

/-- Jitter draws fixed at zero. -/
def zero_jitter : ℕ → ℚ × ℚ × ℚ := fun _ => (0, 0, 0)

/-- An interpolator that always produces the default field. -/
def const_field_interp : Interpolator := fun _ _ => Except.ok ({} : WindField)

/-- An interpolator whose IDW method fails and whose nearest-neighbor
method succeeds. -/
def failing_then_ok_interp : Interpolator := fun _ m =>
  match m with
  | InterpMethod.idw => Except.error "qhull degenerate input"
  | InterpMethod.nearest => Except.ok ({ grid_data := 7 } : WindField)

/-! ## Supporting lemmas about `pymod` -/

theorem pymod_eq_mul_fract (x y : ℚ) (hy : y ≠ 0) :
    pymod x y = y * Int.fract (x / y) := by
  unfold pymod Int.fract
  rw [mul_sub, mul_div_cancel₀ _ hy]

theorem pymod_nonneg (x y : ℚ) (hy : 0 < y) : 0 ≤ pymod x y := by
  rw [pymod_eq_mul_fract x y hy.ne']
  exact mul_nonneg hy.le (Int.fract_nonneg _)

theorem pymod_lt (x y : ℚ) (hy : 0 < y) : pymod x y < y := by
  rw [pymod_eq_mul_fract x y hy.ne']
  calc y * Int.fract (x / y) < y * 1 :=
        mul_lt_mul_of_pos_left (Int.fract_lt_one _) hy
    _ = y := mul_one y

theorem pymod_add_right (x y : ℚ) (hy : y ≠ 0) :
    pymod (x + y) y = pymod x y := by
  unfold pymod
  rw [add_div, div_self hy, Int.floor_add_one]
  push_cast
  ring

/-! ## C1: range and antisymmetry of `angle_difference` -/

/-- C1 counterexample: the claim puts `angle_difference(a, b)` in
`(-180, 180]` and asserts `angle_difference(a,b) = -angle_difference(b,a)`
for all angles; at `a = 180`, `b = 0` the operation returns `-180`, which
is outside `(-180, 180]`, and both orientations return `-180`, so the
antisymmetry also fails there. -/
theorem angle_difference_claim_counterexample :
    angle_difference 180 0 = -180 ∧ ¬ (-180 < angle_difference 180 0) ∧
    angle_difference 0 180 = -180 ∧
    angle_difference 180 0 ≠ - angle_difference 0 180 := by
  have h1 : angle_difference 180 0 = -180 := by
    unfold angle_difference pymod
    norm_num
  have h2 : angle_difference 0 180 = -180 := by
    unfold angle_difference pymod
    norm_num
  refine ⟨h1, ?_, h2, ?_⟩
  · rw [h1]
    exact lt_irrefl _
  · rw [h1, h2]
    norm_num

/-- C1 (amended): for all angles `a`, `b` the operation
`((a - b + 180) % 360) - 180` lies in the half-open interval
`[-180, 180)` (not `(-180, 180]`), and
`angle_difference(a,b) = -angle_difference(b,a)` holds except in the
boundary case `angle_difference(a,b) = -180` (i.e. `a - b ≡ 180 (mod
360)`), where both orientations return `-180`. -/
theorem angle_difference_range_and_antisymmetry (a b : ℚ) :
    (-180 ≤ angle_difference a b ∧ angle_difference a b < 180) ∧
    (angle_difference a b ≠ -180 →
      angle_difference a b = - angle_difference b a) ∧
    (angle_difference a b = -180 → angle_difference b a = -180) := by
  have h360 : (0:ℚ) < 360 := by norm_num
  have hab : angle_difference a b =
      360 * Int.fract ((a - b + 180) / 360) - 180 := by
    unfold angle_difference
    rw [pymod_eq_mul_fract _ _ h360.ne']
  have hdiv : (b - a + 180) / 360 = ((1:ℤ) : ℚ) + -((a - b + 180) / 360) := by
    push_cast
    field_simp
    ring
  have hba : angle_difference b a =
      360 * Int.fract (-((a - b + 180) / 360)) - 180 := by
    unfold angle_difference
    rw [pymod_eq_mul_fract _ _ h360.ne', hdiv, Int.fract_int_add]
  constructor
  · constructor
    · have := pymod_nonneg (a - b + 180) 360 h360
      unfold angle_difference
      linarith
    · have := pymod_lt (a - b + 180) 360 h360
      unfold angle_difference
      linarith
  constructor
  · intro hne
    have hfz : Int.fract ((a - b + 180) / 360) ≠ 0 := by
      intro h0
      apply hne
      rw [hab, h0]
      norm_num
    rw [hab, hba, Int.fract_neg hfz]
    ring
  · intro h180
    have hfz : Int.fract ((a - b + 180) / 360) = 0 := by
      rw [hab] at h180
      linarith
    have hint : ((a - b + 180) / 360) = ((⌊(a - b + 180) / 360⌋ : ℤ) : ℚ) := by
      have := Int.floor_add_fract ((a - b + 180) / 360)
      rw [hfz] at this
      linarith
    rw [hba, hint]
    rw [← Int.cast_neg, Int.fract_intCast]
    norm_num

/-- C1 witness: at `a = 30`, `b = 70` the difference is `-40`, inside
`[-180, 180)` and away from the `-180` boundary, so the antisymmetry
applies. -/
theorem angle_difference_range_witness :
    (-180 ≤ angle_difference 30 70 ∧ angle_difference 30 70 < 180) ∧
    angle_difference 30 70 = - angle_difference 70 30 := by
  refine ⟨(angle_difference_range_and_antisymmetry 30 70).1,
    (angle_difference_range_and_antisymmetry 30 70).2.1 ?_⟩
  unfold angle_difference pymod
  norm_num

/-! ## C2, C3: maneuver classification -/

theorem upwind_band_equiv (x w : ℚ) :
    ((0 ≤ pymod (x - w + 360) 360 ∧ pymod (x - w + 360) 360 ≤ 90) ∨
      (270 ≤ pymod (x - w + 360) 360 ∧ pymod (x - w + 360) 360 ≤ 360)) ↔
    upwind_rel x w := by
  have hper : pymod (x - w + 360) 360 = pymod (x - w) 360 :=
    pymod_add_right _ _ (by norm_num)
  have h0 := pymod_nonneg (x - w) 360 (by norm_num)
  have hlt := pymod_lt (x - w) 360 (by norm_num)
  rw [hper]
  unfold upwind_rel
  constructor
  · rintro (⟨-, h⟩ | ⟨h, -⟩)
    · exact Or.inl h
    · exact Or.inr h
  · rintro (h | h)
    · exact Or.inl ⟨h0, h⟩
    · exact Or.inr ⟨h, by linarith⟩

/-- C2 counterexample: the claim says `tack` is returned exactly when both
bearings are upwind by the 45° threshold; at `before = 80`, `after = 280`,
`wind = 0` the source classifier returns `tack` although neither relative
angle (80 and 280) is within 45° of the wind. -/
theorem categorize_maneuver_threshold_counterexample :
    categorize_maneuver 80 280 0 = "tack" ∧
    ¬ claim_upwind_45 80 0 ∧ ¬ claim_upwind_45 280 0 := by
  refine ⟨?_, ?_, ?_⟩
  · unfold categorize_maneuver pymod
    norm_num
  · unfold claim_upwind_45 pymod
    norm_num
  · unfold claim_upwind_45 pymod
    norm_num

/-- C2 (amended): `_categorize_maneuver` takes no 45°/120° thresholds; a
bearing counts as upwind exactly when its relative angle to the wind lies
within 90° on either side (`[0,90] ∪ [270,360)` after reduction), there is
no reaching band, and the classifier returns `tack` iff both bearings are
upwind, `jibe` iff both are downwind (i.e. not upwind), `bear_away` for
upwind-to-downwind, and `head_up` for downwind-to-upwind. -/
theorem categorize_maneuver_uses_90_degree_bands (b a w : ℚ) :
    (categorize_maneuver b a w = "tack" ↔ upwind_rel b w ∧ upwind_rel a w) ∧
    (categorize_maneuver b a w = "jibe" ↔
      ¬ upwind_rel b w ∧ ¬ upwind_rel a w) ∧
    (categorize_maneuver b a w = "bear_away" ↔
      upwind_rel b w ∧ ¬ upwind_rel a w) ∧
    (categorize_maneuver b a w = "head_up" ↔
      ¬ upwind_rel b w ∧ upwind_rel a w) := by
  have Hb := upwind_band_equiv b w
  have Ha := upwind_band_equiv a w
  unfold categorize_maneuver
  by_cases hb : upwind_rel b w <;> by_cases ha : upwind_rel a w <;>
    simp only [Hb, Ha] <;> simp [hb, ha]

/-- C3 (confirmed): the four fixed test fixtures of the source test suite
hold on `_categorize_maneuver` with wind direction 0. -/
theorem categorize_maneuver_fixtures :
    categorize_maneuver 30 330 0 = "tack" ∧
    categorize_maneuver 150 210 0 = "jibe" ∧
    categorize_maneuver 30 150 0 = "bear_away" ∧
    categorize_maneuver 150 30 0 = "head_up" := by
  refine ⟨?_, ?_, ?_, ?_⟩ <;>
    (unfold categorize_maneuver pymod; norm_num)

/-! ## C4, C5: validation of `estimate_wind_from_single_boat` -/

theorem foldl_max_replicate (n : ℕ) (x : ℚ) :
    (List.replicate n x).foldl max x = x := by
  induction n with
  | zero => rfl
  | succ n ih => simpa [List.replicate_succ, max_self] using ih

theorem foldl_min_replicate (n : ℕ) (x : ℚ) :
    (List.replicate n x).foldl min x = x := by
  induction n with
  | zero => rfl
  | succ n ih => simpa [List.replicate_succ, min_self] using ih

theorem track_duration_replicate (n rows : ℕ) (hb hs : Bool) (x : ℚ) :
    track_duration ⟨rows, hb, hs, some (List.replicate (n + 1) x)⟩ = 0 := by
  rw [List.replicate_succ]
  show (List.replicate n x).foldl max x - (List.replicate n x).foldl min x = 0
  rw [foldl_max_replicate, foldl_min_replicate, sub_self]

/-- C4 (confirmed): for every track with fewer than `min_valid_points`
(20) rows, or lacking the `bearing` or the `speed` column,
`estimate_wind_from_single_boat` returns `None` — whatever the rest of the
pipeline (`rest`) would do; the embedded function is total, so no such
input can raise. -/
theorem estimate_wind_single_boat_insufficient {α : Type}
    (rest : GpsData → Option α) (g : GpsData)
    (h : g.numRows < min_valid_points ∨ g.hasBearing = false ∨
      g.hasSpeed = false) :
    estimate_wind_from_single_boat rest (some g) = none := by
  rcases h with h | h | h
  · simp [estimate_wind_from_single_boat, h]
  · by_cases h1 : g.numRows < min_valid_points
    · simp [estimate_wind_from_single_boat, h1]
    · simp [estimate_wind_from_single_boat, h1, h]
  · by_cases h1 : g.numRows < min_valid_points
    · simp [estimate_wind_from_single_boat, h1]
    · simp [estimate_wind_from_single_boat, h1, h]

/-- C4 witness: a 5-row track with both columns present is rejected. -/
theorem estimate_wind_single_boat_insufficient_witness :
    estimate_wind_from_single_boat (fun _ => some 0)
      (some ⟨5, true, true, some (List.replicate 5 0)⟩) = (none : Option ℕ) :=
  estimate_wind_single_boat_insufficient _ _
    (Or.inl (by norm_num [min_valid_points]))

/-- C5 counterexample: the claim says every track whose timestamps span
less than 60 seconds yields `None`; a track of 41 rows with zero duration
passes validation (the source waives the duration check when the row count
exceeds `min_valid_points * 2` and logs that it continues), so the result
is whatever the downstream pipeline produces, not forced to `None`. -/
theorem short_duration_counterexample :
    track_duration ⟨41, true, true, some (List.replicate 41 0)⟩ < 60 ∧
    estimate_wind_from_single_boat (fun _ => some 0)
      (some ⟨41, true, true, some (List.replicate 41 0)⟩) = some 0 := by
  have hd : track_duration ⟨41, true, true, some (List.replicate 41 0)⟩ = 0 :=
    track_duration_replicate 40 41 true true 0
  constructor
  · rw [hd]
    norm_num
  · simp [estimate_wind_from_single_boat, hd, min_valid_points,
      min_valid_duration]

/-- C5 (amended): a track whose timestamps span less than
`min_valid_duration` (60 s) yields `None` only when its row count is at
most `min_valid_points * 2` (40); with more than 40 rows the duration
check is waived and processing continues. -/
theorem short_duration_guard {α : Type} (rest : GpsData → Option α)
    (g : GpsData) (hdur : track_duration g < min_valid_duration)
    (hrows : g.numRows ≤ min_valid_points * 2) :
    estimate_wind_from_single_boat rest (some g) = none := by
  by_cases h1 : g.numRows < min_valid_points
  · simp [estimate_wind_from_single_boat, h1]
  · by_cases h2 : (g.hasBearing && g.hasSpeed) = true
    · have h3 : ¬ min_valid_points * 2 < g.numRows := by omega
      simp [estimate_wind_from_single_boat, h1, h2, hdur, h3]
    · simp [estimate_wind_from_single_boat, h1, h2]

/-- C5 witness for the amended guard: 30 rows, zero duration. -/
theorem short_duration_guard_witness :
    estimate_wind_from_single_boat (fun _ => some 0)
      (some ⟨30, true, true, some (List.replicate 30 0)⟩) = (none : Option ℕ) :=
  short_duration_guard _ _
    (by
      have hd : track_duration ⟨30, true, true, some (List.replicate 30 0)⟩ = 0 :=
        track_duration_replicate 29 30 true true 0
      rw [hd]
      norm_num [min_valid_duration])
    (by norm_num [min_valid_points])

/-! ## C9: hybrid confidence combination -/

theorem foldl_max_mem (x : ℚ) (l : List ℚ) : l.foldl max x ∈ x :: l := by
  induction l generalizing x with
  | nil => simp
  | cons y t ih =>
    rw [List.foldl_cons]
    rcases List.mem_cons.mp (ih (max x y)) with h | h
    · rcases max_choice x y with hm | hm
      · rw [h, hm]
        exact List.mem_cons_self _ _
      · rw [h, hm]
        exact List.mem_cons_of_mem _ (List.mem_cons_self _ _)
    · exact List.mem_cons_of_mem _ (List.mem_cons_of_mem _ h)

theorem le_foldl_max_init (x : ℚ) (l : List ℚ) : x ≤ l.foldl max x := by
  induction l generalizing x with
  | nil => simp
  | cons y t ih =>
    rw [List.foldl_cons]
    exact le_trans (le_max_left x y) (ih (max x y))

theorem le_foldl_max_mem (x a : ℚ) (l : List ℚ) (ha : a ∈ l) :
    a ≤ l.foldl max x := by
  induction l generalizing x with
  | nil => cases ha
  | cons y t ih =>
    rw [List.foldl_cons]
    rcases List.mem_cons.mp ha with h | h
    · rw [h]
      exact le_trans (le_max_right x y) (le_foldl_max_init (max x y) t)
    · exact ih _ h

theorem pymax_eq_of_isMax (l : List ℚ) (M : ℚ) (hmem : M ∈ l)
    (hub : ∀ x ∈ l, x ≤ M) : pymax l = M := by
  match l with
  | x :: xs =>
    show xs.foldl max x = M
    apply le_antisymm
    · exact hub _ (foldl_max_mem x xs)
    · rcases List.mem_cons.mp hmem with h | h
      · rw [h]
        exact le_foldl_max_init x xs
      · exact le_foldl_max_mem x M xs h

/-- C9 (confirmed): whenever `M` is the maximum sub-estimator confidence
and `A` their mean (over the estimates dictionary built by
`estimate_wind_direction_hybrid`), the returned confidence is
`(0.7 * M + 0.3 * A) * data_quality`; and the consensus direction ignores
sub-estimators with nonpositive confidence: filtering them out of the
input of `_weighted_angle_consensus` never changes its result. -/
theorem hybrid_confidence_formula_and_zero_exclusion
    (sind cosd : ℚ → ℚ) (atan2deg : ℚ → ℚ → ℚ) (speedE polarE vmgE : ℚ × ℚ)
    (data_quality M A : ℚ)
    (hM : M ∈ (hybrid_estimates speedE polarE vmgE).map Prod.snd ∧
      ∀ x ∈ (hybrid_estimates speedE polarE vmgE).map Prod.snd, x ≤ M)
    (hA : A * (((hybrid_estimates speedE polarE vmgE).map Prod.snd).length : ℚ)
      = ((hybrid_estimates speedE polarE vmgE).map Prod.snd).sum) :
    (estimate_wind_direction_hybrid_combine sind cosd atan2deg speedE polarE
        vmgE data_quality).2 = ((7/10) * M + (3/10) * A) * data_quality
    ∧ ∀ results : List (ℚ × ℚ),
        weighted_angle_consensus sind cosd atan2deg results =
          weighted_angle_consensus sind cosd atan2deg
            (results.filter (fun r => decide (0 < r.2))) := by
  constructor
  · have hmax : pymax ((hybrid_estimates speedE polarE vmgE).map Prod.snd) = M :=
      pymax_eq_of_isMax _ M hM.1 hM.2
    have hlenne : ((hybrid_estimates speedE polarE vmgE).map Prod.snd).length ≠ 0 := by
      unfold hybrid_estimates
      simp
    have hlen : ((((hybrid_estimates speedE polarE vmgE).map Prod.snd).length : ℕ) : ℚ) ≠ 0 := by
      exact_mod_cast hlenne
    have havg : ((hybrid_estimates speedE polarE vmgE).map Prod.snd).sum /
        (((hybrid_estimates speedE polarE vmgE).map Prod.snd).length : ℚ) = A := by
      rw [div_eq_iff hlen, ← hA]
    show ((7:ℚ)/10 * pymax ((hybrid_estimates speedE polarE vmgE).map Prod.snd) +
        3/10 * (((hybrid_estimates speedE polarE vmgE).map Prod.snd).sum /
          (((hybrid_estimates speedE polarE vmgE).map Prod.snd).length : ℚ))) *
        data_quality = _
    rw [hmax, havg]
  · intro results
    by_cases h0 : results = []
    · subst h0
      rfl
    · have hff : (results.filter (fun r => decide (0 < r.2))).filter
          (fun r => decide (0 < r.2)) =
          results.filter (fun r => decide (0 < r.2)) := by
        rw [List.filter_filter]
        congr 1
        funext r
        rw [Bool.and_self]
      by_cases hf : results.filter (fun r => decide (0 < r.2)) = []
      · unfold weighted_angle_consensus
        rw [if_neg h0, if_pos hf]
        simp [hf]
      · unfold weighted_angle_consensus
        rw [if_neg h0, if_neg hf, hff]

/-- C9 witness: speed-pattern estimate (10°, 0.5), polar estimate (20°, 0)
excluded, VMG estimate (30°, 0.75), data quality 0.5: maximum 0.75, mean
0.625, confidence (0.7·0.75 + 0.3·0.625)·0.5 = 57/160. -/
theorem hybrid_confidence_witness :
    (estimate_wind_direction_hybrid_combine id id (fun y x => y + x)
      (10, 1/2) (20, 0) (30, 3/4) (1/2)).2 = 57/160 := by
  have h := (hybrid_confidence_formula_and_zero_exclusion id id
    (fun y x => y + x) (10, 1/2) (20, 0) (30, 3/4) (1/2) (3/4) (5/8)
    ⟨by norm_num [hybrid_estimates], by
      intro x hx
      norm_num [hybrid_estimates] at hx
      rcases hx with h1 | h1 <;> (rw [h1]; try norm_num)⟩
    (by norm_num [hybrid_estimates])).1
  rw [h]
  norm_num

/-! ## Supporting lemmas about the fusion system -/

theorem fuse_wind_data_points (interp : Interpolator)
    (jitter : ℕ → ℚ × ℚ × ℚ) (s : FusionState) :
    (fuse_wind_data interp jitter s).wind_data_points = s.wind_data_points := by
  unfold fuse_wind_data apply_fused_field
  split
  · rfl
  · split
    · rfl
    · split
      · rfl
      · rfl

theorem map_with_index_timestamp (f : ℕ → WindDataPoint → WindDataPoint)
    (hf : ∀ i p, (f i p).timestamp = p.timestamp) (i : ℕ)
    (l : List WindDataPoint) :
    (map_with_index f i l).map (fun p => p.timestamp) =
      l.map (fun p => p.timestamp) := by
  induction l generalizing i with
  | nil => rfl
  | cons p ps ih => simp [map_with_index, hf, ih]

theorem scale_data_points_timestamp (jitter : ℕ → ℚ × ℚ × ℚ)
    (l : List WindDataPoint) :
    (scale_data_points jitter l).map (fun p => p.timestamp) =
      l.map (fun p => p.timestamp) := by
  cases l with
  | nil => rfl
  | cons p ps =>
    simp only [scale_data_points]
    apply map_with_index_timestamp
    intro i q
    rfl

theorem recent_points_bound (s : FusionState) :
    ∀ p ∈ recent_points s, latest_time_of s - p.timestamp ≤ 1800 := by
  intro p hp
  unfold recent_points at hp
  have h := (List.mem_filter.mp hp).2
  simpa using h

theorem fuse_ok_history (F : List WindDataPoint → InterpMethod → WindField)
    (jitter : ℕ → ℚ × ℚ × ℚ) (s : FusionState)
    (hne : s.wind_data_points ≠ []) :
    (fuse_wind_data (ok_interpolator F) jitter s).wind_field_history =
      push_history s.wind_field_history (latest_time_of s)
        { F (fuse_input jitter s) InterpMethod.idw with
          time := some (latest_time_of s) } := by
  unfold fuse_wind_data ok_interpolator apply_fused_field
  rw [if_neg hne]

theorem push_history_length (h : List HistoryEntry) (t : ℚ) (f : WindField)
    (hlen : h.length ≤ 10) :
    (push_history h t f).length = min (h.length + 1) 10 := by
  unfold push_history max_history_size
  by_cases h10 : 10 < (h ++ [({ time := t, field := f } : HistoryEntry)]).length
  · rw [if_pos h10]
    simp only [List.length_drop, List.length_append, List.length_cons,
      List.length_nil] at *
    omega
  · rw [if_neg h10]
    simp only [List.length_append, List.length_cons, List.length_nil] at *
    omega

theorem push_history_full (h : List HistoryEntry) (t : ℚ) (f : WindField)
    (h10 : h.length = 10) :
    push_history h t f = h.drop 1 ++ [({ time := t, field := f } : HistoryEntry)] := by
  unfold push_history max_history_size
  rw [if_pos (by simp [List.length_append, h10])]
  exact List.drop_append_of_le_length (by omega)

theorem run_fusions_history_length
    (F : List WindDataPoint → InterpMethod → WindField)
    (jitter : ℕ → ℚ × ℚ × ℚ) :
    ∀ (batches : List (List WindDataPoint)) (s : FusionState),
      (∀ b ∈ batches, b ≠ []) → s.wind_field_history.length ≤ 10 →
      (run_fusions (ok_interpolator F) jitter batches s).wind_field_history.length
        = min (s.wind_field_history.length + batches.length) 10 := by
  intro batches
  induction batches with
  | nil =>
    intro s _ hs
    simp only [run_fusions, List.foldl_nil, List.length_nil]
    omega
  | cons b bs ih =>
    intro s hb hs
    have hstep : run_fusions (ok_interpolator F) jitter (b :: bs) s =
        run_fusions (ok_interpolator F) jitter bs
          (fuse_wind_data (ok_interpolator F) jitter
            { s with wind_data_points := b }) := rfl
    have hbne : b ≠ [] := hb b (List.mem_cons_self _ _)
    have hlen1 : (fuse_wind_data (ok_interpolator F) jitter
        { s with wind_data_points := b }).wind_field_history.length =
        min (s.wind_field_history.length + 1) 10 := by
      rw [fuse_ok_history F jitter { s with wind_data_points := b }
        (by simpa using hbne)]
      exact push_history_length _ _ _ (by simpa using hs)
    rw [hstep, ih _ (fun b' hb' => hb b' (List.mem_cons_of_mem _ hb'))
      (by rw [hlen1]; omega), hlen1]
    simp only [List.length_cons]
    omega

/-! ## C6: interpolation fallback chain in `fuse_wind_data` -/

/-- C6 (confirmed): for a fusion cycle with a nonempty observation buffer,
`current_wind_field` ends up `None` exactly when both the IDW attempt and
the nearest-neighbor attempt fail; and whenever the IDW attempt fails the
result is whatever the nearest-neighbor attempt produces (its field,
stamped with the latest timestamp, or `None` on a second failure).  The
embedded `fuse_wind_data` is total, so no interpolator failure escapes to
the caller. -/
theorem fuse_wind_data_fallback (interp : Interpolator)
    (jitter : ℕ → ℚ × ℚ × ℚ) (s : FusionState)
    (hne : s.wind_data_points ≠ []) :
    ((fuse_wind_data interp jitter s).current_wind_field = none ↔
      (interp (fuse_input jitter s) InterpMethod.idw).toOption = none ∧
      (interp (fuse_input jitter s) InterpMethod.nearest).toOption = none)
    ∧ ∀ e, interp (fuse_input jitter s) InterpMethod.idw = Except.error e →
        (fuse_wind_data interp jitter s).current_wind_field =
          (interp (fuse_input jitter s) InterpMethod.nearest).toOption.map
            (fun f => { f with time := some (latest_time_of s) }) := by
  unfold fuse_wind_data
  rw [if_neg hne]
  cases hidw : interp (fuse_input jitter s) InterpMethod.idw with
  | ok f =>
    constructor
    · simp [apply_fused_field, Except.toOption]
    · intro e he
      exact absurd he (by simp)
  | error e0 =>
    cases hnear : interp (fuse_input jitter s) InterpMethod.nearest with
    | ok f =>
      constructor
      · simp [apply_fused_field, Except.toOption]
      · intro e he
        simp [apply_fused_field, Except.toOption]
    | error e1 =>
      constructor
      · simp [Except.toOption]
      · intro e he
        simp [Except.toOption]

/-- C6 witness: with an interpolator whose IDW method fails and whose
nearest-neighbor method returns the field tagged `7`, the fusion cycle on
a one-point buffer stores that fallback field, stamped with the latest
timestamp. -/
theorem fuse_wind_data_fallback_witness :
    (fuse_wind_data failing_then_ok_interp zero_jitter
        test_state).current_wind_field =
      some { time := some 0, grid_data := 7 } := by
  have h := (fuse_wind_data_fallback failing_then_ok_interp zero_jitter
    test_state (by simp [test_state])).2 "qhull degenerate input" rfl
  rw [h]
  simp [failing_then_ok_interp, Except.toOption, latest_time_of, test_state,
    sort_by_timestamp, test_point, List.insertionSort, List.orderedInsert]

/-! ## C7: bounded FIFO wind-field history -/

/-- C7 (confirmed): starting from a fresh system, a sequence of successful
fusion cycles (each batch of observations nonempty, the interpolator
always succeeding) leaves `wind_field_history` with exactly
`min (number of fusions) 10` entries — so the length never exceeds
`max_history_size = 10` and equals 10 once more than 10 fusions have run;
and a successful fusion on a full history of 10 evicts exactly the oldest
entry, appending the new snapshot (FIFO). -/
theorem wind_field_history_fifo
    (F : List WindDataPoint → InterpMethod → WindField)
    (jitter : ℕ → ℚ × ℚ × ℚ) (batches : List (List WindDataPoint))
    (hb : ∀ b ∈ batches, b ≠ []) :
    (run_fusions (ok_interpolator F) jitter batches
        init_fusion_state).wind_field_history.length = min batches.length 10
    ∧ ∀ s : FusionState, s.wind_field_history.length = 10 →
        s.wind_data_points ≠ [] →
        (fuse_wind_data (ok_interpolator F) jitter s).wind_field_history =
          s.wind_field_history.drop 1 ++ [fused_history_entry F jitter s] := by
  constructor
  · have h := run_fusions_history_length F jitter batches init_fusion_state hb
      (by simp [init_fusion_state])
    simpa [init_fusion_state] using h
  · intro s h10 hne
    rw [fuse_ok_history F jitter s hne, push_history_full _ _ _ h10]
    rfl

/-- C7 witness: twelve successful one-point fusion cycles leave exactly 10
history entries, and a successful fusion on a concrete full history of 10
snapshots drops the oldest one and appends the new snapshot. -/
theorem wind_field_history_fifo_witness :
    (run_fusions (ok_interpolator (fun _ _ => {})) zero_jitter
        (List.replicate 12 [test_point])
        init_fusion_state).wind_field_history.length = 10
    ∧ (fuse_wind_data (ok_interpolator (fun _ _ => {})) zero_jitter
        { test_state with
          wind_field_history :=
            List.replicate 10 { time := 0, field := {} } }).wind_field_history =
      (List.replicate 10 ({ time := 0, field := {} } : HistoryEntry)).drop 1 ++
        [fused_history_entry (fun _ _ => {}) zero_jitter
          { test_state with
            wind_field_history :=
              List.replicate 10 { time := 0, field := {} } }] := by
  have h := wind_field_history_fifo (fun _ _ => {}) zero_jitter
    (List.replicate 12 [test_point])
    (fun b hb => by rw [List.eq_of_mem_replicate hb]; simp)
  constructor
  · have h1 := h.1
    simpa using h1
  · exact h.2 _ (by simp) (by simp [test_state])

/-! ## C8: the 1800-second observation window -/

/-- C8 counterexample: the claim says observations older than 1800 s
(relative to the latest) are discarded from `wind_data_points` by the
fusion cycle; in the source, `fuse_wind_data` only filters a local copy,
and here the observation 2000 s older than the latest one is still in
`wind_data_points` after the cycle. -/
theorem stale_points_not_discarded_counterexample :
    1800 < latest_time_of stale_state - test_point.timestamp ∧
    test_point ∈ (fuse_wind_data const_field_interp zero_jitter
      stale_state).wind_data_points := by
  constructor
  · have hl : latest_time_of stale_state = 2000 := by
      simp [latest_time_of, stale_state, sort_by_timestamp, test_point,
        List.insertionSort, List.orderedInsert]
    rw [hl]
    norm_num [test_point]
  · rw [fuse_wind_data_points]
    simp [stale_state]

/-- C8 (amended): `fuse_wind_data` hands the interpolator (after scaling,
which preserves timestamps one-to-one) exactly the observations within
1800 seconds of the latest timestamp — but it does not remove the older
observations from `wind_data_points`; the buffer is left unchanged by the
fusion cycle (it is only replaced wholesale by the next
`update_with_boat_data` call). -/
theorem fuse_uses_recent_window_only (interp : Interpolator)
    (jitter : ℕ → ℚ × ℚ × ℚ) (s : FusionState) :
    ((fuse_input jitter s).map (fun p => p.timestamp) =
      (recent_points s).map (fun p => p.timestamp))
    ∧ (∀ p ∈ recent_points s, latest_time_of s - p.timestamp ≤ 1800)
    ∧ (fuse_wind_data interp jitter s).wind_data_points =
        s.wind_data_points :=
  ⟨scale_data_points_timestamp jitter (recent_points s),
    recent_points_bound s,
    fuse_wind_data_points interp jitter s⟩

/-- C8 witness: on the one-point state the single observation is in the
1800-second window and the buffer survives the fusion cycle unchanged. -/
theorem fuse_recent_window_witness :
    latest_time_of test_state - test_point.timestamp ≤ 1800 ∧
    (fuse_wind_data const_field_interp zero_jitter
      test_state).wind_data_points = [test_point] := by
  have h := fuse_uses_recent_window_only const_field_interp zero_jitter
    test_state
  constructor
  · refine h.2.1 test_point ?_
    simp [recent_points, sort_by_timestamp, test_state, test_point,
      latest_time_of, List.insertionSort, List.orderedInsert]
  · exact h.2.2

/-! ## C10: `update_with_boat_data` with no usable boat data -/

theorem boats_foldl_skip (boats : List (String × BoatDataFrame))
    (h : ∀ b ∈ boats, b.2.rows = [] ∨ required_columns b.2 = false)
    (a : List WindDataPoint) :
    boats.foldl
      (fun acc b =>
        if b.2.rows = [] then acc
        else if ¬ required_columns b.2 = true then acc
        else acc ++ b.2.rows.map (boat_row_to_point b.1))
      a = a := by
  induction boats generalizing a with
  | nil => rfl
  | cons b bs ih =>
    rw [List.foldl_cons]
    have hstep : (if b.2.rows = [] then a
        else if ¬ required_columns b.2 = true then a
        else a ++ b.2.rows.map (boat_row_to_point b.1)) = a := by
      rcases h b (List.mem_cons_self _ _) with hb | hb
      · rw [if_pos hb]
      · by_cases hr : b.2.rows = []
        · rw [if_pos hr]
        · rw [if_neg hr, if_pos (by simp [hb])]
    rw [hstep]
    exact ih (fun b' hb' => h b' (List.mem_cons_of_mem _ hb')) a

/-- C10 (confirmed): when every boat's dataframe is empty or missing a
required column (in particular when `boats_data` is empty), no fusion
runs: the returned field is the previously computed `current_wind_field`
(possibly stale, possibly `None`), the state is unchanged except that the
observation buffer is left empty, and in particular the history and the
current field are untouched. -/
theorem update_with_boat_data_no_valid_input (interp : Interpolator)
    (jitter : ℕ → ℚ × ℚ × ℚ) (boats : List (String × BoatDataFrame))
    (s : FusionState)
    (h : ∀ b ∈ boats, b.2.rows = [] ∨ required_columns b.2 = false) :
    update_with_boat_data interp jitter boats s =
      ({ s with wind_data_points := [] }, s.current_wind_field) := by
  unfold update_with_boat_data
  rw [boats_foldl_skip boats h]
  rfl

/-- C10 witness: one boat with an empty dataframe and one boat missing the
`wind_speed_knots` column leave a state holding a current field and a
history entry untouched, returning the stale field. -/
theorem update_with_boat_data_no_valid_input_witness :
    update_with_boat_data const_field_interp zero_jitter
      [("a", { rows := [] }),
        ("b", { rows := [{ timestamp := 0, latitude := 0, longitude := 0,
                           wind_direction := 0, wind_speed_knots := 5 }]
                hasWindSpeedKnotsCol := false })]
      { test_state with current_wind_field := some { grid_data := 3 } } =
      ({ test_state with
          current_wind_field := some { grid_data := 3 }
          wind_data_points := [] },
        some { grid_data := 3 }) := by
  refine update_with_boat_data_no_valid_input _ _ _ _ ?_
  intro b hb
  rcases List.mem_cons.mp hb with h1 | h1
  · rw [h1]
    left
    rfl
  · rcases List.mem_cons.mp h1 with h2 | h2
    · rw [h2]
      right
      rfl
    · cases h2

end Sailing
